import Mathlib

/-!
Shallow embedding of the PHP Booster integration-test harness
(`tools/internal-test/lib/`) and proofs of its specified properties.

The filesystem is modelled as a predicate on paths (`FS`), a path being a
list of name components.  Results of external commands (git, ddev, the
integration script) are passed to the embedded functions as explicit
parameters, since the harness only ever observes their exit codes and
captured output.
-/

/-- A filesystem path, as a list of components relative to some root. -/
abbrev FsPath := List String

/-- A filesystem state: which paths currently exist. -/
abbrev FS := FsPath → Bool

/-- Result of one external command invocation, as observed by
`CommandExecutor.run_command` with `capture_output=True, check=False`
(`lib/command_utils.py`): an exit code and the captured streams. -/
structure CmdResult where
  returncode : Int
  stdout : String
  stderr : String
deriving DecidableEq

/-- Boolean test that `needle` is a leading segment of `hay`
(character lists).  Used to model Python's substring operator. -/
def startsWithList : List Char → List Char → Bool
  | [], _ => true
  | _ :: _, [] => false
  | a :: as, b :: bs => a == b && startsWithList as bs

/-- Boolean test that `needle` occurs contiguously inside the second list.
Models Python's `needle in hay` on strings. -/
def hasSubList (needle : List Char) : List Char → Bool
  | [] => needle.isEmpty
  | c :: cs => startsWithList needle (c :: cs) || hasSubList needle cs

/-- `strContains hay needle` models Python's `needle in hay` substring test. -/
def strContains (hay needle : String) : Bool :=
  hasSubList needle.data hay.data

/-- Models Python's `str.lower()` (sufficient for the ASCII tokens the
harness compares). -/
def strToLower (s : String) : String :=
  String.mk (s.data.map Char.toLower)

/-- Boolean test that the first path is an ancestor of (or equal to) the
second.  Used to model `Path.mkdir(parents=True, exist_ok=True)`. -/
def pathIsAncestor : FsPath → FsPath → Bool
  | [], _ => true
  | _ :: _, [] => false
  | a :: as, b :: bs => a == b && pathIsAncestor as bs

/-- Effect of `target_dir.mkdir(parents=True, exist_ok=True)` on the
filesystem: the target directory and all of its ancestors now exist;
everything else is unchanged. -/
def mkdirParents (fs : FS) (td : FsPath) : FS :=
  fun p => fs p || pathIsAncestor p td

/-- A concrete filesystem holding exactly the listed paths (used to
evaluate the embedded functions on concrete states). -/
def sampleFs (paths : List FsPath) : FS :=
  fun p => paths.contains p

/-! ## `StateDetector` (`lib/state_detector.py`) -/

/-- `StateDetector.is_project_created` (state_detector.py:22-27):
the target directory exists and `composer.json` exists inside it. -/
def is_project_created (fs : FS) (td : FsPath) : Bool :=
  fs td && fs (td ++ ["composer.json"])

/-- The fixed positive-indicator tokens of
`StateDetector.is_ddev_running` (state_detector.py:48-55). -/
def running_indicators : List String :=
  ["ok", "running", "healthy", "project:", "service", "docker platform:"]

/-- `StateDetector.is_ddev_running` (state_detector.py:29-62).
`statusCmd` is the observed outcome of running `ddev status`
(`Except.error` models a raised exception, caught by the broad
`except` clause).  The second component of the result counts how many
times the status command was invoked. -/
def is_ddev_running (targetDirExists : Bool)
    (statusCmd : Except Unit CmdResult) : Bool × Nat :=
  if !targetDirExists then (false, 0)
  else
    match statusCmd with
    | .error _ => (false, 1)
    | .ok result =>
      if result.returncode = 0 then
        let output := strToLower result.stdout
        (running_indicators.any (fun ind => strContains output ind), 1)
      else
        (false, 1)

/-- `StateDetector.is_booster_integrated` (state_detector.py:64-76):
the `.booster-version` stamp exists, or else both legacy hook-support
files exist. -/
def is_booster_integrated (fs : FS) (td : FsPath) : Bool :=
  if fs (td ++ [".booster-version"]) then true
  else
    fs (td ++ [".husky", "shared", "utils.ts"]) &&
    fs (td ++ [".husky", "commit-msg.ts"])

/-! ## `ProjectSetup` (`lib/project_setup.py`) -/

/-- Outcome of `ProjectSetup.setup_project`: either `sys.exit(code)` with
the filesystem in the given state, or normal completion. -/
inductive SetupOutcome
  | exited (code : Nat) (fs : FS)
  | completed (fs : FS)

/-- `ProjectSetup.setup_project` (project_setup.py:28-52).
If the project is already created the method exits with code 1 before
touching the filesystem.  Otherwise it creates the target directory
(`mkdir(parents=True, exist_ok=True)`), then branches on the project
type; `setupSymfony` / `setupLaravel` stand for the filesystem effect of
`_setup_symfony` / `_setup_laravel`, which consist of external `ddev`,
`docker` and `git` invocations.  An unknown project type exits with
code 1 after the directory was created. -/
def setup_project (fs : FS) (td : FsPath) (projectType : String)
    (setupSymfony setupLaravel : FS → FS) : SetupOutcome :=
  if is_project_created fs td then
    SetupOutcome.exited 1 fs
  else
    let fs1 := mkdirParents fs td
    if projectType = "symfony" then SetupOutcome.completed (setupSymfony fs1)
    else if projectType = "laravel" then SetupOutcome.completed (setupLaravel fs1)
    else SetupOutcome.exited 1 fs1

/-! ## `IntegrationVerifier` (`lib/verification.py`) -/

/-- The fixed expected-artifact manifest of
`IntegrationVerifier.verify_integration` (verification.py:44-55). -/
def expected_files : List FsPath :=
  [["tools", "git-hooks", "hooks", "commit-msg"],
   ["tools", "git-hooks", "hooks", "pre-commit"],
   ["tools", "git-hooks", "hooks", "pre-push"],
   ["tools", "git-hooks", "hooks", "commit-msg.ts"],
   ["tools", "git-hooks", "hooks", "pre-commit.ts"],
   ["tools", "git-hooks", "hooks", "pre-push.ts"],
   ["tools", "git-hooks", "shared", "utils.ts"],
   ["validate-branch-name.config.cjs"],
   ["package.json"],
   ["renovate.json"]]

/-- The missing-file collection loop of `verify_integration`
(verification.py:57-61): every manifest path absent from the
filesystem, collected in one pass. -/
def missing_files (fs : FS) (td : FsPath) : List FsPath :=
  expected_files.filter (fun p => !(fs (td ++ p)))

/-- Outcome of `IntegrationVerifier.verify_integration`; every
constructor except `success` corresponds to a `sys.exit(1)` call. -/
inductive VerifyOutcome
  | noProject
  | ddevNotRunning
  | missingArtifacts (missing : List FsPath)
  | ecsFailed
  | renovateInvalid
  | success
deriving DecidableEq

/-- The process exit code produced by each `verify_integration` outcome
(`none` means the method returned normally). -/
def vExitCode : VerifyOutcome → Option Nat
  | .success => none
  | _ => some 1

/-- `IntegrationVerifier.verify_integration` (verification.py:29-104).
`ddevRunning` is the result of `is_ddev_running`; `ecsOk` is whether
`ddev composer ecs --version` succeeded; `renovateValid` is whether the
`renovate.json` content checks passed (its missing-rule cases are only
warnings; a parse failure is fatal).  The missing-artifact check
collects all missing manifest paths before exiting. -/
def verify_integration (fs : FS) (td : FsPath)
    (ddevRunning ecsOk renovateValid : Bool) : VerifyOutcome :=
  if !(is_project_created fs td) then VerifyOutcome.noProject
  else if !ddevRunning then VerifyOutcome.ddevNotRunning
  else
    let missing := missing_files fs td
    if !missing.isEmpty then VerifyOutcome.missingArtifacts missing
    else if !ecsOk then VerifyOutcome.ecsFailed
    else if !renovateValid then VerifyOutcome.renovateInvalid
    else VerifyOutcome.success

/-! ## `HookTester` (`lib/hook_testing.py`) -/

/-- The footer substring asserted by `HookTester._test_valid_branch`
(hook_testing.py:222) for branch `feature/PRJ-123-test-feature`. -/
def ticketFooter : String := "Closes: PRJ-123"

/-- The branch name used by the valid-branch test
(hook_testing.py:161-166). -/
def validTestBranch : String := "feature/PRJ-123-test-feature"

/-- Outcome of one hook-test step: a `sys.exit(code)` or normal
continuation of the run. -/
inductive HookStepOutcome
  | exited (code : Nat)
  | passed
deriving DecidableEq

/-- `HookTester._test_valid_branch` (hook_testing.py:156-230), from the
commit attempt onward (the preceding checkout / file write / `git add`
run with `check=True` and abort the run by exception on failure).
`commitResult` is the outcome of `git commit` on the ticket-token
branch (`Except.error` models the `CalledProcessError` branch);
`commitBody` is the captured output of `git log -1 --pretty=%B`.
The step passes iff the body contains the ticket footer; otherwise it
exits fatally with code 1. -/
def test_valid_branch (commitResult : Except Unit Unit)
    (commitBody : String) : HookStepOutcome :=
  match commitResult with
  | .ok _ =>
    if strContains commitBody ticketFooter then HookStepOutcome.passed
    else HookStepOutcome.exited 1
  | .error _ => HookStepOutcome.exited 1

/-- Observable effects of `HookTester._test_invalid_branch`:
whether the tester exited (and with which code), whether it ran
`git reset HEAD test_commit2.php`, and whether it deleted the test file
from the working tree. -/
structure InvalidBranchTrace where
  exitCode : Option Nat
  unstaged : Bool
  fileDeleted : Bool
deriving DecidableEq

/-- `HookTester._test_invalid_branch` (hook_testing.py:232-314), from
the commit attempt onward.  `commitReturncode` is the exit code of
`git commit` on the non-ticket-token branch (run with `check=False`);
`fileStillExists` is whether `test_commit2.php` is still present when
the cleanup branch checks for it.  If the commit succeeded (exit 0) the
tester exits fatally with code 1 without any cleanup; on confirmed
rejection it unstages the file and deletes it when present. -/
def test_invalid_branch (commitReturncode : Int)
    (fileStillExists : Bool) : InvalidBranchTrace :=
  if commitReturncode = 0 then
    { exitCode := some 1, unstaged := false, fileDeleted := false }
  else
    { exitCode := none, unstaged := true, fileDeleted := fileStillExists }

/-! ## `TestOrchestrator` (`lib/test_orchestrator.py`) -/

/-- The keys of the fixed action map of `TestOrchestrator.run_action`
(test_orchestrator.py:298-343). -/
def orchestrator_actions : List String :=
  ["full", "env-check", "setup", "setup-resume", "integrate", "verify",
   "test-hooks", "test-interactive", "test-interactive-project",
   "clean-interactive-test", "clean", "status", "help"]

/-- Outcome of `TestOrchestrator.run_action`: dispatch to the mapped
procedure, or the unknown-action error path with its exit code. -/
inductive RunActionOutcome
  | dispatched (action : String)
  | unknownAction (exitCode : Nat)
deriving DecidableEq

/-- `TestOrchestrator.run_action` (test_orchestrator.py:296-351):
`actions.get(action)` on the fixed map; a missing key logs
`Unknown action: ...` and calls `sys.exit(1)`. -/
def run_action (action : String) : RunActionOutcome :=
  if orchestrator_actions.contains action then
    RunActionOutcome.dispatched action
  else
    RunActionOutcome.unknownAction 1

/-! ## Theorems -/

/-- C5: for every filesystem state, `is_project_created` returns true iff
the target directory exists and `composer.json` exists inside it; it is
false whenever the manifest is absent, true once the manifest is present
(on a coherent filesystem where a file's presence implies its
directory's), and independent of every other path's presence. -/
theorem is_project_created_spec (fs fs' : FS) (td : FsPath)
    (hwf : fs (td ++ ["composer.json"]) = true → fs td = true) :
    (is_project_created fs td = true ↔
      (fs td = true ∧ fs (td ++ ["composer.json"]) = true)) ∧
    (fs (td ++ ["composer.json"]) = false → is_project_created fs td = false) ∧
    (fs (td ++ ["composer.json"]) = true → is_project_created fs td = true) ∧
    (fs td = fs' td → fs (td ++ ["composer.json"]) = fs' (td ++ ["composer.json"]) →
      is_project_created fs td = is_project_created fs' td) := by
  refine ⟨?_, ?_, ?_, ?_⟩
  · simp [is_project_created]
  · intro h; simp [is_project_created, h]
  · intro h; simp [is_project_created, h, hwf h]
  · intro h1 h2; simp [is_project_created, h1, h2]

theorem is_project_created_spec_witness :
    (is_project_created (sampleFs [["proj"], ["proj", "composer.json"]]) ["proj"] = true) ∧
    (is_project_created (sampleFs [["proj"]]) ["proj"] = false) := by
  constructor
  · exact (is_project_created_spec (sampleFs [["proj"], ["proj", "composer.json"]])
      (sampleFs []) ["proj"] (fun _ => by decide)).2.2.1 (by decide)
  · exact (is_project_created_spec (sampleFs [["proj"]])
      (sampleFs []) ["proj"] (fun h => by simp [sampleFs] at h)).2.1 (by decide)

/-- C7: `is_booster_integrated` is true iff the version-stamp file
exists or both legacy hook-support files exist; the stamp alone
suffices, and when the stamp is absent the legacy pair alone decides. -/
theorem is_booster_integrated_spec (fs : FS) (td : FsPath) :
    (is_booster_integrated fs td = true ↔
      (fs (td ++ [".booster-version"]) = true ∨
       (fs (td ++ [".husky", "shared", "utils.ts"]) = true ∧
        fs (td ++ [".husky", "commit-msg.ts"]) = true))) ∧
    (fs (td ++ [".booster-version"]) = true → is_booster_integrated fs td = true) ∧
    (fs (td ++ [".booster-version"]) = false →
      is_booster_integrated fs td =
        (fs (td ++ [".husky", "shared", "utils.ts"]) &&
         fs (td ++ [".husky", "commit-msg.ts"]))) := by
  refine ⟨?_, ?_, ?_⟩
  · unfold is_booster_integrated
    cases h : fs (td ++ [".booster-version"]) <;> simp [h]
  · intro h; simp [is_booster_integrated, h]
  · intro h; simp [is_booster_integrated, h]

theorem is_booster_integrated_spec_witness :
    (is_booster_integrated (sampleFs [["p", ".booster-version"]]) ["p"] = true) ∧
    (is_booster_integrated (sampleFs [["p", ".husky", "shared", "utils.ts"],
        ["p", ".husky", "commit-msg.ts"]]) ["p"] = true) ∧
    (is_booster_integrated (sampleFs [["p", ".husky", "commit-msg.ts"]]) ["p"] = false) := by
  refine ⟨?_, ?_, ?_⟩
  · exact (is_booster_integrated_spec (sampleFs [["p", ".booster-version"]])
      ["p"]).2.1 (by decide)
  · exact ((is_booster_integrated_spec (sampleFs [["p", ".husky", "shared", "utils.ts"],
        ["p", ".husky", "commit-msg.ts"]]) ["p"]).1).mpr (Or.inr (by decide))
  · have h := (is_booster_integrated_spec
      (sampleFs [["p", ".husky", "commit-msg.ts"]]) ["p"]).2.2 (by decide)
    simp only [h]; decide

/-- C9: when the target directory does not exist, `is_ddev_running`
returns false with zero invocations of the `ddev status` command,
whatever that command would have produced. -/
theorem is_ddev_running_no_dir (statusCmd : Except Unit CmdResult) :
    is_ddev_running false statusCmd = (false, 0) := by
  simp [is_ddev_running]

/-- C6: given the target directory exists, `is_ddev_running` is false
whenever `ddev status` exits non-zero, and on exit code zero it is true
iff the lowered output contains at least one of the fixed positive
indicator tokens. -/
theorem is_ddev_running_spec (r : CmdResult) :
    (r.returncode ≠ 0 → (is_ddev_running true (Except.ok r)).fst = false) ∧
    (r.returncode = 0 →
      ((is_ddev_running true (Except.ok r)).fst = true ↔
        ∃ tok, tok ∈ running_indicators ∧
          strContains (strToLower r.stdout) tok = true)) := by
  constructor
  · intro h; simp [is_ddev_running, h]
  · intro h; simp [is_ddev_running, h, List.any_eq_true]

theorem is_ddev_running_spec_witness :
    ((is_ddev_running true (Except.ok ⟨1, "Project: demo", ""⟩)).fst = false) ∧
    ((is_ddev_running true (Except.ok ⟨0, "Project: demo", ""⟩)).fst = true) := by
  constructor
  · exact (is_ddev_running_spec ⟨1, "Project: demo", ""⟩).1 (by decide)
  · exact ((is_ddev_running_spec ⟨0, "Project: demo", ""⟩).2 rfl).mpr
      ⟨"project:", by decide, by decide⟩

/-- Helper: the target directory exists after `mkdirParents`. -/
theorem pathIsAncestor_refl (td : FsPath) : pathIsAncestor td td = true := by
  induction td with
  | nil => rfl
  | cons a as ih => simp [pathIsAncestor, ih]

/-- C4: whenever `is_project_created` already holds, `setup_project`
exits with code 1 without any filesystem mutation (the state it exits
in is the state it was invoked in); consequently a second `setup` run
after a first run that produced a created project always aborts this
way, leaving the first project's files untouched. -/
theorem setup_project_aborts_when_created (fs : FS) (td : FsPath)
    (pt : String) (fS fL : FS → FS)
    (h : is_project_created fs td = true) :
    setup_project fs td pt fS fL = SetupOutcome.exited 1 fs ∧
    (∀ (fs0 : FS) (pt0 : String) (fS0 fL0 : FS → FS) (fs1 : FS),
      setup_project fs0 td pt0 fS0 fL0 = SetupOutcome.completed fs1 →
      is_project_created fs1 td = true →
      setup_project fs1 td pt fS fL = SetupOutcome.exited 1 fs1) := by
  constructor
  · simp [setup_project, h]
  · intro fs0 pt0 fS0 fL0 fs1 _ h1
    simp [setup_project, h1]

theorem setup_project_aborts_when_created_witness :
    setup_project (sampleFs [["proj"], ["proj", "composer.json"]]) ["proj"]
      "laravel" id id =
      SetupOutcome.exited 1 (sampleFs [["proj"], ["proj", "composer.json"]]) :=
  (setup_project_aborts_when_created
    (sampleFs [["proj"], ["proj", "composer.json"]]) ["proj"] "laravel" id id
    (by decide)).1

/-- C10: with an unknown project type and no existing project,
`setup_project` exits with code 1 only after creating the target
directory: the state at exit is `mkdirParents fs td`, in which the
target directory exists, and which differs from the initial state
whenever the directory did not already exist — this error path is not
non-mutating. -/
theorem setup_project_unknown_type_mutates (fs : FS) (td : FsPath)
    (pt : String) (fS fL : FS → FS)
    (hc : is_project_created fs td = false)
    (h1 : pt ≠ "symfony") (h2 : pt ≠ "laravel") :
    setup_project fs td pt fS fL = SetupOutcome.exited 1 (mkdirParents fs td) ∧
    mkdirParents fs td td = true ∧
    (fs td = false → mkdirParents fs td ≠ fs) := by
  refine ⟨?_, ?_, ?_⟩
  · simp [setup_project, hc, h1, h2]
  · simp [mkdirParents, pathIsAncestor_refl]
  · intro hno heq
    have : mkdirParents fs td td = fs td := congrFun heq td
    rw [hno] at this
    simp [mkdirParents, pathIsAncestor_refl] at this

theorem setup_project_unknown_type_mutates_witness :
    setup_project (sampleFs []) ["proj"] "wordpress" id id =
      SetupOutcome.exited 1 (mkdirParents (sampleFs []) ["proj"]) ∧
    mkdirParents (sampleFs []) ["proj"] ["proj"] = true ∧
    mkdirParents (sampleFs []) ["proj"] ≠ sampleFs [] := by
  have h := setup_project_unknown_type_mutates (sampleFs []) ["proj"]
    "wordpress" id id (by decide) (by decide) (by decide)
  exact ⟨h.1, h.2.1, h.2.2 (by decide)⟩

/-- C8: given the project exists and the runtime is up,
`verify_integration` exits with code 1 whenever any path of the
expected-artifact manifest is absent, reporting in that single exit the
full list of missing paths (every absent manifest path is in the
reported list); when no manifest path is missing it never fails on the
missing-artifact check. -/
theorem verify_integration_missing_spec (fs : FS) (td : FsPath)
    (ecsOk renovateValid : Bool)
    (hp : is_project_created fs td = true) :
    (∀ p, p ∈ expected_files → fs (td ++ p) = false →
      verify_integration fs td true ecsOk renovateValid =
        VerifyOutcome.missingArtifacts (missing_files fs td) ∧
      vExitCode (verify_integration fs td true ecsOk renovateValid) = some 1) ∧
    (∀ q, q ∈ expected_files → fs (td ++ q) = false →
      q ∈ missing_files fs td) ∧
    (missing_files fs td = [] →
      ∀ m, verify_integration fs td true ecsOk renovateValid ≠
        VerifyOutcome.missingArtifacts m) := by
  have hmem : ∀ q, q ∈ expected_files → fs (td ++ q) = false →
      q ∈ missing_files fs td := by
    intro q hq hfs
    exact List.mem_filter.mpr ⟨hq, by simp [hfs]⟩
  refine ⟨?_, hmem, ?_⟩
  · intro p hp' hfs
    have hne : (missing_files fs td).isEmpty = false := by
      cases hml : missing_files fs td with
      | nil => have := hmem p hp' hfs; rw [hml] at this; cases this
      | cons a l => rfl
    constructor
    · simp [verify_integration, hp, hne]
    · simp [verify_integration, hp, hne, vExitCode]
  · intro hml m
    cases ecsOk <;> cases renovateValid <;>
      simp [verify_integration, hp, hml]

theorem verify_integration_missing_spec_witness :
    verify_integration (sampleFs [["p"], ["p", "composer.json"]]) ["p"]
      true true true =
      VerifyOutcome.missingArtifacts
        (missing_files (sampleFs [["p"], ["p", "composer.json"]]) ["p"]) ∧
    ["package.json"] ∈
      missing_files (sampleFs [["p"], ["p", "composer.json"]]) ["p"] := by
  have h := verify_integration_missing_spec
    (sampleFs [["p"], ["p", "composer.json"]]) ["p"] true true (by decide)
  exact ⟨(h.1 ["package.json"] (by decide) (by decide)).1,
    h.2.1 ["package.json"] (by decide) (by decide)⟩

/-- C2: in the valid-branch hook test, once the commit on
`feature/PRJ-123-test-feature` has succeeded, the step continues
normally iff the resulting commit message contains the footer substring
`Closes: PRJ-123`; when the footer is absent it exits fatally with the
non-zero code 1. -/
theorem test_valid_branch_spec (commitResult : Except Unit Unit)
    (commitBody : String) (h : commitResult = Except.ok ()) :
    (test_valid_branch commitResult commitBody = HookStepOutcome.passed ↔
      strContains commitBody ticketFooter = true) ∧
    (strContains commitBody ticketFooter = false →
      test_valid_branch commitResult commitBody = HookStepOutcome.exited 1 ∧
      (1 : Nat) ≠ 0) := by
  subst h
  constructor
  · cases hc : strContains commitBody ticketFooter <;>
      simp [test_valid_branch, hc]
  · intro hc
    exact ⟨by simp [test_valid_branch, hc], by decide⟩

theorem test_valid_branch_spec_witness :
    (test_valid_branch (Except.ok ())
      "feat: add test feature\n\nCloses: PRJ-123" = HookStepOutcome.passed) ∧
    (test_valid_branch (Except.ok ())
      "feat: add test feature" = HookStepOutcome.exited 1) := by
  constructor
  · exact ((test_valid_branch_spec (Except.ok ())
      "feat: add test feature\n\nCloses: PRJ-123" rfl).1).mpr (by decide)
  · exact ((test_valid_branch_spec (Except.ok ())
      "feat: add test feature" rfl).2 (by decide)).1

/-- C3: in the invalid-branch hook test, a commit that exits 0 makes the
tester exit fatally with code 1 without unstaging or deleting anything;
a non-zero commit exit (the required outcome) lets the run continue,
unstaging the staged test file and deleting it from the working tree
when present — so the cleanup happens exactly on confirmed rejection. -/
theorem test_invalid_branch_spec (rc : Int) (fileStillExists : Bool) :
    (rc = 0 → test_invalid_branch rc fileStillExists =
      { exitCode := some 1, unstaged := false, fileDeleted := false }) ∧
    (rc ≠ 0 → test_invalid_branch rc fileStillExists =
      { exitCode := none, unstaged := true, fileDeleted := fileStillExists }) ∧
    ((test_invalid_branch rc fileStillExists).unstaged = true ↔ rc ≠ 0) ∧
    ((test_invalid_branch rc fileStillExists).fileDeleted = true → rc ≠ 0) := by
  refine ⟨?_, ?_, ?_, ?_⟩
  · intro h; simp [test_invalid_branch, h]
  · intro h; simp [test_invalid_branch, h]
  · cases hr : decide (rc = 0) with
    | true => simp at hr; simp [test_invalid_branch, hr]
    | false =>
      have : rc ≠ 0 := by simpa using hr
      simp [test_invalid_branch, this]
  · intro h heq
    subst heq
    simp [test_invalid_branch] at h

theorem test_invalid_branch_spec_witness :
    (test_invalid_branch 0 true =
      { exitCode := some 1, unstaged := false, fileDeleted := false }) ∧
    (test_invalid_branch 1 true =
      { exitCode := none, unstaged := true, fileDeleted := true }) := by
  constructor
  · exact (test_invalid_branch_spec 0 true).1 rfl
  · exact (test_invalid_branch_spec 1 true).2.1 (by decide)

/-- C1 counterexample: running the unknown action name `bogus` through
`run_action` exits with code 1, not the usage/argument code 2 the claim
asserts. -/
theorem run_action_unknown_exits_one :
    run_action "bogus" = RunActionOutcome.unknownAction 1 ∧
    run_action "bogus" ≠ RunActionOutcome.unknownAction 2 := by
  constructor
  · decide
  · decide

/-- C1 (amended): for every action name not in the orchestrator's fixed
action map, `run_action` reports the unknown action as an error and
exits with code 1 — the same exit code used for precondition failures,
not a distinct usage code. -/
theorem run_action_unknown_spec (action : String)
    (h : orchestrator_actions.contains action = false) :
    run_action action = RunActionOutcome.unknownAction 1 := by
  unfold run_action
  rw [h]
  simp

theorem run_action_unknown_spec_witness :
    run_action "frobnicate" = RunActionOutcome.unknownAction 1 :=
  run_action_unknown_spec "frobnicate" (by decide)
